import Mathlib

/-!
Verification of the chat-session lifecycle and conversational state management
of the Multichatbot Streamlit application.

The authoritative code is the Conversation mode of `src/app.py` (the Streamlit
app): the `st.session_state` fields `chat_history`, `chat_session` and
`chat_message_input`, the session-initialisation block, the Send Message and
Clear Chat button handlers, and the helper `chat_response_streaming`.
`src/code/app.py` is the earlier console prototype; its synchronous reply
extraction (`response.text` returned whole) is embedded as `sync_send_reply`
for the streaming-refinement comparison.

A Python call that raises an exception with message `e` is modelled as
`Except.error e`; a normal return of `v` as `Except.ok v`.
-/

/-- Provider-side chat session handle, the value stored by
`st.session_state.chat_session = client.chats.create(...)` (app.py line 167).
The controller treats it as opaque; only identity matters. -/
abbrev Session := Nat

/-- One script run's view of the external Gemini provider: the outcome of
`client.chats.create` (app.py line 167) and, per message, the outcome of
`chat_session.send_message` (app.py line 88). -/
structure Provider where
  createResult : Except String Session
  sendResult : String → Except String String

/-- The `st.session_state` fields of the Conversation page (app.py lines
156-162): the transcript of (user, bot) pairs, the stored session handle
(`none` when no session is active), and the pending input string. -/
structure ChatState where
  chat_history : List (String × String)
  chat_session : Option Session
  chat_message_input : String
deriving DecidableEq, Repr

/-- Python's `str.strip()` on the character list: leading and trailing
whitespace removed. The Send handler's guard `if user_message.strip():`
(app.py line 192) tests that this is non-empty. Defined structurally (via
`List.dropWhile`) so that concrete runs evaluate. -/
def py_strip (s : String) : String :=
  ⟨((s.data.dropWhile Char.isWhitespace).reverse.dropWhile Char.isWhitespace).reverse⟩

/-- The character loop of `chat_response_streaming` (app.py lines 94-101):
`displayed_text` starts empty and each character of `full_text` is appended in
order; every intermediate frame is rendered with a trailing cursor glyph and a
`time.sleep` pause, both display-only effects with no bearing on the value. -/
def stream_chars : List Char → String → String
  | [], displayed => displayed
  | c :: cs, displayed => stream_chars cs (displayed.push c)

/-- Final accumulated `displayed_text` of the streaming loop, starting from the
empty string as in app.py line 94. -/
def chat_stream_displayed (full_text : String) : String :=
  stream_chars full_text.data ""

/-- Embedding of `chat_response_streaming` (app.py lines 85-107). The body
sends the message, runs the cosmetic display loop over the received
`full_text`, and returns `full_text` (not the accumulated `displayed_text`).
Its internal try/except catches every exception raised by `send_message` and
returns normally with the string `"Error: " ++ e`, so the function yields
`Except.ok` for every provider outcome. -/
def chat_response_streaming (sendOutcome : Except String String) : Except String String :=
  match sendOutcome with
  | .ok full_text =>
      let _displayed_text := chat_stream_displayed full_text
      .ok full_text
  | .error e => .ok ("Error: " ++ e)

/-- Reply extraction of the console chat loop (src/code/app.py line 48): the
whole `response.text` is used directly and a raised provider error propagates
to the caller unchanged. -/
def sync_send_reply (sendOutcome : Except String String) : Except String String :=
  sendOutcome

/-- A user interaction with the Conversation page: clicking Send Message with
the given text in the input box, clicking Clear Chat, or neither. -/
inductive UserAction where
  | send (msg : String)
  | clear
  | idle
deriving DecidableEq, Repr

/-- How one script run of the Conversation page ended: normally, halted by
`st.stop()` after `client.chats.create` raised (app.py lines 169-171, the
surfaced session-creation error), or with the empty-input warning
(app.py line 219, the local rejection of blank input). -/
inductive RunOutcome where
  | completed
  | stoppedCreateError (e : String)
  | warnedEmpty
deriving DecidableEq, Repr

/-- Result of one script run: the new session state, whether
`client.chats.create` was called, whether `chat_session.send_message` was
called, whether the `except` branch of the Send handler (app.py lines 212-213)
ran, and how the run ended. -/
structure RunOut where
  state : ChatState
  createInvoked : Bool
  sendInvoked : Bool
  exceptTaken : Bool
  outcome : RunOutcome
deriving DecidableEq, Repr

/-- The two button handlers of the Conversation page (app.py lines 190-226),
reached only after the init block has ensured a stored session. Send with
non-blank input calls `chat_response_streaming` inside a try block and appends
`(msg, response_text)` to the history; afterwards (outside the try) the input
is cleared. Send with blank input only warns. Clear Chat resets all three
state fields. `created` records whether this run called `client.chats.create`. -/
def conversation_handlers (st : ChatState) (prov : Provider) (act : UserAction)
    (created : Bool) : RunOut :=
  match act with
  | .idle => ⟨st, created, false, false, .completed⟩
  | .clear => ⟨⟨[], none, ""⟩, created, false, false, .completed⟩
  | .send msg =>
    if py_strip msg ≠ "" then
      match chat_response_streaming (prov.sendResult msg) with
      | .ok response_text =>
          ⟨⟨st.chat_history ++ [(msg, response_text)], st.chat_session, ""⟩,
            created, true, false, .completed⟩
      | .error _ =>
          ⟨⟨st.chat_history, st.chat_session, ""⟩, created, true, true, .completed⟩
    else
      ⟨st, created, false, false, .warnedEmpty⟩

/-- One Streamlit script run of the Conversation page (app.py lines 151-226).
The session-init block (lines 165-171) runs before any handler: with no stored
session it calls `client.chats.create`, and on a raised exception it shows the
error and calls `st.stop()`, ending the run before the buttons are processed. -/
def conversation_run (st : ChatState) (prov : Provider) (act : UserAction) : RunOut :=
  match st.chat_session with
  | none =>
      match prov.createResult with
      | .ok s => conversation_handlers { st with chat_session := some s } prov act true
      | .error e => ⟨st, true, false, false, .stoppedCreateError e⟩
  | some _ => conversation_handlers st prov act false

/-- A sequence of Send Message clicks, one script run each; the turn `(m, r)`
is a run whose provider answers `r` for the sent message. -/
def run_send_seq (st : ChatState) : List (String × String) → ChatState
  | [] => st
  | (m, r) :: rest =>
      run_send_seq (conversation_run st ⟨Except.ok 0, fun _ => Except.ok r⟩ (.send m)).state rest

/-- States reachable by the page: a cleared session handle only ever coexists
with an empty transcript and an empty pending input, because `chat_session` is
set to `none` exactly by initialisation and by Clear Chat, both of which also
empty the other two fields. -/
def SessionHistoryInv (st : ChatState) : Prop :=
  st.chat_session = none → st.chat_history = [] ∧ st.chat_message_input = ""

-- Helper lemmas ---------------------------------------------------------

theorem stream_chars_data (cs : List Char) (acc : String) :
    stream_chars cs acc = ⟨acc.data ++ cs⟩ := by
  induction cs generalizing acc with
  | nil => cases acc; simp [stream_chars]
  | cons c cs ih =>
      cases acc with
      | mk l => simp [stream_chars, String.push, ih]

theorem chat_stream_displayed_eq (s : String) : chat_stream_displayed s = s := by
  cases s with
  | mk l => simp [chat_stream_displayed, stream_chars_data]

theorem conversation_run_send_active (st : ChatState) (prov : Provider) (msg : String)
    (s : Session) (hs : st.chat_session = some s) (hm : py_strip msg ≠ "") :
    conversation_run st prov (.send msg) =
      ⟨⟨st.chat_history ++
          [(msg, match prov.sendResult msg with
                 | .ok t => t
                 | .error e => "Error: " ++ e)], some s, ""⟩,
        false, true, false, .completed⟩ := by
  obtain ⟨hist, sess, inp⟩ := st
  cases hs
  cases hps : prov.sendResult msg with
  | ok t => simp [conversation_run, conversation_handlers, chat_response_streaming, hm, hps]
  | error e => simp [conversation_run, conversation_handlers, chat_response_streaming, hm, hps]

theorem sessionHistoryInv_init : SessionHistoryInv ⟨[], none, ""⟩ := by
  intro _; exact ⟨rfl, rfl⟩

theorem sessionHistoryInv_preserved (st : ChatState) (prov : Provider) (act : UserAction)
    (h : SessionHistoryInv st) :
    SessionHistoryInv (conversation_run st prov act).state := by
  obtain ⟨hist, sess, inp⟩ := st
  cases sess with
  | none =>
      cases hc : prov.createResult with
      | ok s =>
          cases act with
          | idle => simp [conversation_run, conversation_handlers, hc, SessionHistoryInv]
          | clear => simp [conversation_run, conversation_handlers, hc, SessionHistoryInv]
          | send msg =>
              by_cases hm : py_strip msg = "" <;>
                cases hps : prov.sendResult msg <;>
                  simp [conversation_run, conversation_handlers, chat_response_streaming,
                    hc, hm, hps, SessionHistoryInv]
      | error e => simpa [conversation_run, hc] using h
  | some s =>
      cases act with
      | idle => simpa [conversation_run, conversation_handlers] using h
      | clear => simp [conversation_run, conversation_handlers, SessionHistoryInv]
      | send msg =>
          by_cases hm : py_strip msg = "" <;>
            cases hps : prov.sendResult msg <;>
              simp [conversation_run, conversation_handlers, chat_response_streaming,
                hm, hps, SessionHistoryInv]

theorem run_send_seq_active (turns : List (String × String)) :
    ∀ (st : ChatState) (s : Session), st.chat_session = some s →
      (∀ t ∈ turns, py_strip (Prod.fst t) ≠ "") →
      (run_send_seq st turns).chat_history = st.chat_history ++ turns ∧
      (run_send_seq st turns).chat_session = some s := by
  induction turns with
  | nil =>
      intro st s hs _
      constructor <;> simp [run_send_seq, hs]
  | cons t rest ih =>
      intro st s hs hm
      obtain ⟨m, r⟩ := t
      have hm1 : py_strip m ≠ "" := hm (m, r) (List.mem_cons_self _ _)
      have hstep := conversation_run_send_active st ⟨Except.ok 0, fun _ => Except.ok r⟩ m s hs hm1
      have h1 : (conversation_run st ⟨Except.ok 0, fun _ => Except.ok r⟩ (.send m)).state =
          ⟨st.chat_history ++ [(m, r)], some s, ""⟩ := by rw [hstep]
      rw [run_send_seq, h1]
      have ihr := ih ⟨st.chat_history ++ [(m, r)], some s, ""⟩ s rfl
        (fun t ht => hm t (List.mem_cons_of_mem _ ht))
      refine ⟨?_, ihr.2⟩
      rw [ihr.1]
      simp

-- Claim theorems --------------------------------------------------------

/-- C1 counterexample: with an active session, an empty transcript and a
provider whose exchange raises, the Send handler still appends a pair: after
the failing call the transcript holds ("ping", "Error: network down"), so a
failed exchange does change the transcript's length and contents, and the
stored reply is not a genuine provider reply. -/
theorem C1_counterexample :
    (conversation_run ⟨[], some 3, ""⟩ ⟨Except.ok 0, fun _ => Except.error "network down"⟩
        (.send "ping")).state.chat_history = [("ping", "Error: network down")] ∧
    [("ping", "Error: network down")] ≠ ([] : List (String × String)) := by
  exact ⟨by decide, by decide⟩

/-- C1 amended: when the provider exchange raises with message e on an active
session, the streamed call returns normally with reply "Error: " ++ e and the
handler appends (msg, "Error: " ++ e) to the transcript: the transcript grows
by exactly this pair, the session handle is kept, and the input is cleared. -/
theorem C1_amended_failed_send_appends_error_pair (st : ChatState) (prov : Provider)
    (msg e : String) (s : Session) (hs : st.chat_session = some s)
    (hm : py_strip msg ≠ "") (hp : prov.sendResult msg = Except.error e) :
    (conversation_run st prov (.send msg)).state =
      ⟨st.chat_history ++ [(msg, "Error: " ++ e)], some s, ""⟩ := by
  rw [conversation_run_send_active st prov msg s hs hm]
  simp [hp]

theorem C1_amended_witness :
    ((⟨[("a", "b")], some 3, ""⟩ : ChatState).chat_session = some 3) ∧
    (py_strip "ping" ≠ "") ∧
    ((⟨Except.ok 0, fun _ => Except.error "boom"⟩ : Provider).sendResult "ping"
        = Except.error "boom") ∧
    (conversation_run ⟨[("a", "b")], some 3, ""⟩ ⟨Except.ok 0, fun _ => Except.error "boom"⟩
        (.send "ping")).state = ⟨[("a", "b"), ("ping", "Error: boom")], some 3, ""⟩ :=
  ⟨rfl, by decide, rfl,
    C1_amended_failed_send_appends_error_pair ⟨[("a", "b")], some 3, ""⟩
      ⟨Except.ok 0, fun _ => Except.error "boom"⟩ "ping" "boom" 3 rfl (by decide) rfl⟩

/-- C2: a provider-side failure of one turn is not fatal: the session handle
stored in the state is unchanged by the failing run, and a subsequent send on
the same session with a successful provider reply appends its (message, reply)
pair to the transcript normally. -/
theorem C2_failed_turn_not_fatal (st : ChatState) (p1 p2 : Provider)
    (m1 m2 r e : String) (s : Session) (hs : st.chat_session = some s)
    (h1 : py_strip m1 ≠ "") (h2 : py_strip m2 ≠ "")
    (hp1 : p1.sendResult m1 = Except.error e) (hp2 : p2.sendResult m2 = Except.ok r) :
    ((conversation_run st p1 (.send m1)).state.chat_session = some s) ∧
    ((conversation_run (conversation_run st p1 (.send m1)).state p2
        (.send m2)).state.chat_session = some s) ∧
    ((conversation_run (conversation_run st p1 (.send m1)).state p2
        (.send m2)).state.chat_history
      = (conversation_run st p1 (.send m1)).state.chat_history ++ [(m2, r)]) := by
  have e1 := conversation_run_send_active st p1 m1 s hs h1
  have hs1 : (conversation_run st p1 (.send m1)).state.chat_session = some s := by rw [e1]
  have e2 := conversation_run_send_active ((conversation_run st p1 (.send m1)).state)
    p2 m2 s hs1 h2
  refine ⟨hs1, ?_, ?_⟩
  · rw [e2]
  · rw [e2]
    simp [hp2]

theorem C2_witness :
    ((⟨[], some 1, ""⟩ : ChatState).chat_session = some 1) ∧
    (py_strip "ping" ≠ "") ∧ (py_strip "pong" ≠ "") ∧
    ((⟨Except.ok 0, fun _ => Except.error "network"⟩ : Provider).sendResult "ping"
        = Except.error "network") ∧
    ((⟨Except.ok 0, fun _ => Except.ok "ok!"⟩ : Provider).sendResult "pong"
        = Except.ok "ok!") ∧
    (((conversation_run ⟨[], some 1, ""⟩ ⟨Except.ok 0, fun _ => Except.error "network"⟩
        (.send "ping")).state.chat_session = some 1) ∧
     ((conversation_run (conversation_run ⟨[], some 1, ""⟩
          ⟨Except.ok 0, fun _ => Except.error "network"⟩ (.send "ping")).state
        ⟨Except.ok 0, fun _ => Except.ok "ok!"⟩ (.send "pong")).state.chat_session = some 1) ∧
     ((conversation_run (conversation_run ⟨[], some 1, ""⟩
          ⟨Except.ok 0, fun _ => Except.error "network"⟩ (.send "ping")).state
        ⟨Except.ok 0, fun _ => Except.ok "ok!"⟩ (.send "pong")).state.chat_history
       = (conversation_run ⟨[], some 1, ""⟩ ⟨Except.ok 0, fun _ => Except.error "network"⟩
          (.send "ping")).state.chat_history ++ [("pong", "ok!")])) :=
  ⟨rfl, by decide, by decide, rfl, rfl,
    C2_failed_turn_not_fatal ⟨[], some 1, ""⟩ ⟨Except.ok 0, fun _ => Except.error "network"⟩
      ⟨Except.ok 0, fun _ => Except.ok "ok!"⟩ "ping" "pong" "ok!" "network" 1 rfl
      (by decide) (by decide) rfl rfl⟩

/-- C3: a message that is empty after stripping whitespace is rejected locally
(the warning branch of the Send handler, the EmptyInputError of the spec): the
provider's exchange is never invoked and the whole state, transcript included,
is unchanged. -/
theorem C3_empty_input_rejected_locally (st : ChatState) (prov : Provider) (msg : String)
    (s : Session) (hs : st.chat_session = some s) (hm : py_strip msg = "") :
    conversation_run st prov (.send msg) = ⟨st, false, false, false, .warnedEmpty⟩ := by
  obtain ⟨hist, sess, inp⟩ := st
  cases hs
  simp [conversation_run, conversation_handlers, hm]

theorem C3_witness :
    ((⟨[], some 2, ""⟩ : ChatState).chat_session = some 2) ∧ (py_strip "   " = "") ∧
    conversation_run ⟨[], some 2, ""⟩ ⟨Except.ok 0, fun _ => Except.ok "x"⟩ (.send "   ") =
      ⟨⟨[], some 2, ""⟩, false, false, false, .warnedEmpty⟩ :=
  ⟨rfl, by decide,
    C3_empty_input_rejected_locally ⟨[], some 2, ""⟩ ⟨Except.ok 0, fun _ => Except.ok "x"⟩
      "   " 2 rfl (by decide)⟩

/-- C4 counterexample: from the NoSession state, a Send click with a provider
that accepts session creation does not fail: the init block creates a session
in the same script run, the provider's exchange is invoked, and the turn is
appended, contradicting the claim that such a call fails deterministically
with the exchange never invoked. -/
theorem C4_counterexample :
    conversation_run ⟨[], none, ""⟩ ⟨Except.ok 7, fun _ => Except.ok "Hi"⟩ (.send "Hello") =
      ⟨⟨[("Hello", "Hi")], some 7, ""⟩, true, true, false, .completed⟩ := by
  decide

/-- C4 amended: a Send click arriving while no session is stored first runs the
session-init block: if creation raises, the run stops deterministically with
the surfaced creation error, the provider's exchange is never invoked and the
state is unchanged; if creation succeeds, the send proceeds on the newly
created session and the exchange is invoked. -/
theorem C4_amended_no_session_send (st : ChatState) (prov : Provider) (msg : String)
    (hn : st.chat_session = none) (hm : py_strip msg ≠ "") :
    (∀ e, prov.createResult = Except.error e →
        conversation_run st prov (.send msg) = ⟨st, true, false, false, .stoppedCreateError e⟩) ∧
    (∀ s, prov.createResult = Except.ok s →
        (conversation_run st prov (.send msg)).sendInvoked = true ∧
        (conversation_run st prov (.send msg)).state.chat_session = some s) := by
  obtain ⟨hist, sess, inp⟩ := st
  cases hn
  constructor
  · intro e hc
    simp [conversation_run, hc]
  · intro s hc
    cases hps : prov.sendResult msg <;>
      simp [conversation_run, conversation_handlers, chat_response_streaming, hc, hm, hps]

theorem C4_amended_witness :
    ((⟨[], none, ""⟩ : ChatState).chat_session = none) ∧ (py_strip "Hello" ≠ "") ∧
    ((⟨Except.error "quota", fun _ => Except.ok "x"⟩ : Provider).createResult
        = Except.error "quota") ∧
    conversation_run ⟨[], none, ""⟩ ⟨Except.error "quota", fun _ => Except.ok "x"⟩
        (.send "Hello") =
      ⟨⟨[], none, ""⟩, true, false, false, .stoppedCreateError "quota"⟩ :=
  ⟨rfl, by decide, rfl,
    (C4_amended_no_session_send ⟨[], none, ""⟩ ⟨Except.error "quota", fun _ => Except.ok "x"⟩
        "Hello" rfl (by decide)).1 "quota" rfl⟩

/-- C5: on every reachable state (a cleared handle coexists only with an empty
transcript and input), a Clear Chat run yields the NoSession state with empty
transcript and empty input, whatever the prior state and provider; running
Clear Chat again from the resulting state gives the same state, so the reset
is idempotent. -/
theorem C5_reset_yields_nosession_empty (st : ChatState) (p1 p2 : Provider)
    (hinv : SessionHistoryInv st) :
    (conversation_run st p1 .clear).state = ⟨[], none, ""⟩ ∧
    (conversation_run (conversation_run st p1 .clear).state p2 .clear).state
      = ⟨[], none, ""⟩ := by
  have key : ∀ (st2 : ChatState) (p : Provider), SessionHistoryInv st2 →
      (conversation_run st2 p .clear).state = ⟨[], none, ""⟩ := by
    intro st2 p h
    obtain ⟨hist, sess, inp⟩ := st2
    cases sess with
    | none =>
        obtain ⟨h1, h2⟩ := h rfl
        cases h1
        cases h2
        cases hc : p.createResult with
        | ok s => simp [conversation_run, conversation_handlers, hc]
        | error e => simp [conversation_run, hc]
    | some s => simp [conversation_run, conversation_handlers]
  have h1 := key st p1 hinv
  refine ⟨h1, ?_⟩
  rw [h1]
  exact key ⟨[], none, ""⟩ p2 sessionHistoryInv_init

theorem C5_witness :
    SessionHistoryInv ⟨[("a", "b"), ("c", "d")], some 5, "draft"⟩ ∧
    ((conversation_run ⟨[("a", "b"), ("c", "d")], some 5, "draft"⟩
        ⟨Except.ok 0, fun _ => Except.ok "r"⟩ .clear).state = ⟨[], none, ""⟩ ∧
     (conversation_run (conversation_run ⟨[("a", "b"), ("c", "d")], some 5, "draft"⟩
          ⟨Except.ok 0, fun _ => Except.ok "r"⟩ .clear).state
        ⟨Except.ok 0, fun _ => Except.ok "r"⟩ .clear).state = ⟨[], none, ""⟩) := by
  have hinv : SessionHistoryInv ⟨[("a", "b"), ("c", "d")], some 5, "draft"⟩ := by
    intro h
    exact absurd h (by decide)
  exact ⟨hinv, C5_reset_yields_nosession_empty ⟨[("a", "b"), ("c", "d")], some 5, "draft"⟩
    ⟨Except.ok 0, fun _ => Except.ok "r"⟩ ⟨Except.ok 0, fun _ => Except.ok "r"⟩ hinv⟩

/-- C6: when no session is stored and `client.chats.create` raises, the run
stops with the surfaced creation error, the state is unchanged (in particular
the session field is still `none`, so no partially-created handle is stored),
and the provider's exchange is never invoked, whatever action was requested. -/
theorem C6_create_failure_keeps_nosession (st : ChatState) (prov : Provider)
    (act : UserAction) (e : String)
    (hn : st.chat_session = none) (hc : prov.createResult = Except.error e) :
    conversation_run st prov act = ⟨st, true, false, false, .stoppedCreateError e⟩ := by
  obtain ⟨hist, sess, inp⟩ := st
  cases hn
  simp [conversation_run, hc]

theorem C6_witness :
    ((⟨[], none, ""⟩ : ChatState).chat_session = none) ∧
    ((⟨Except.error "invalid credential", fun _ => Except.ok "x"⟩ : Provider).createResult
        = Except.error "invalid credential") ∧
    conversation_run ⟨[], none, ""⟩ ⟨Except.error "invalid credential", fun _ => Except.ok "x"⟩
        (.send "hi") =
      ⟨⟨[], none, ""⟩, true, false, false, .stoppedCreateError "invalid credential"⟩ :=
  ⟨rfl, rfl,
    C6_create_failure_keeps_nosession ⟨[], none, ""⟩
      ⟨Except.error "invalid credential", fun _ => Except.ok "x"⟩ (.send "hi")
      "invalid credential" rfl rfl⟩

/-- C7: for every sequence of Send runs on one active session in which every
input is non-blank and every provider exchange succeeds, the transcript after
the sequence is the prior transcript followed by exactly the (message, reply)
pairs of the calls in call order (so from an empty transcript its length is
the number of successful calls and the i-th pair is the i-th call's turn), and
the session handle is unchanged. -/
theorem C7_successful_sequence_appends_in_order (st : ChatState)
    (turns : List (String × String)) (s : Session) (hs : st.chat_session = some s)
    (hm : ∀ t ∈ turns, py_strip (Prod.fst t) ≠ "") :
    (run_send_seq st turns).chat_history = st.chat_history ++ turns ∧
    (run_send_seq st turns).chat_session = some s :=
  run_send_seq_active turns st s hs hm

theorem C7_witness :
    ((⟨[], some 1, ""⟩ : ChatState).chat_session = some 1) ∧
    (∀ t ∈ [("Hello", "Hi there")], py_strip (Prod.fst t) ≠ "") ∧
    ((run_send_seq ⟨[], some 1, ""⟩ [("Hello", "Hi there")]).chat_history
        = [] ++ [("Hello", "Hi there")] ∧
     (run_send_seq ⟨[], some 1, ""⟩ [("Hello", "Hi there")]).chat_session = some 1) := by
  have hm : ∀ t ∈ [("Hello", "Hi there")], py_strip (Prod.fst t) ≠ "" := by decide
  exact ⟨rfl, hm,
    C7_successful_sequence_appends_in_order ⟨[], some 1, ""⟩ [("Hello", "Hi there")] 1 rfl hm⟩

/-- C8: the character-by-character display is purely cosmetic: on a successful
exchange the streamed function returns exactly the provider's whole reply, the
final accumulated displayed text is that same reply, and the returned value
coincides with what the non-streamed synchronous send of the console version
yields for the same exchange. -/
theorem C8_streaming_is_cosmetic (reply : String) :
    chat_response_streaming (Except.ok reply) = Except.ok reply ∧
    chat_stream_displayed reply = reply ∧
    chat_response_streaming (Except.ok reply) = sync_send_reply (Except.ok reply) :=
  ⟨rfl, chat_stream_displayed_eq reply, rfl⟩

/-- C9: the streamed exchange never propagates a provider exception: a raised
message e is converted into the ordinary string reply "Error: " ++ e wrapped
in the same constructor as a genuine reply, for every provider outcome the
function returns normally, and the except branch surrounding the Send handler
is not taken on a provider failure. -/
theorem C9_streaming_total_never_raises (st : ChatState) (prov : Provider)
    (msg e : String) (s : Session) (hs : st.chat_session = some s)
    (hm : py_strip msg ≠ "") (hp : prov.sendResult msg = Except.error e) :
    chat_response_streaming (prov.sendResult msg) = Except.ok ("Error: " ++ e) ∧
    (conversation_run st prov (.send msg)).exceptTaken = false ∧
    ∀ r : Except String String, ∃ t, chat_response_streaming r = Except.ok t := by
  refine ⟨by rw [hp]; simp [chat_response_streaming], ?_, ?_⟩
  · rw [conversation_run_send_active st prov msg s hs hm]
  · intro r
    cases r with
    | ok t => exact ⟨t, rfl⟩
    | error e2 => exact ⟨"Error: " ++ e2, rfl⟩

theorem C9_witness :
    ((⟨[], some 6, ""⟩ : ChatState).chat_session = some 6) ∧ (py_strip "hi" ≠ "") ∧
    ((⟨Except.ok 0, fun _ => Except.error "rate limit"⟩ : Provider).sendResult "hi"
        = Except.error "rate limit") ∧
    (chat_response_streaming
        ((⟨Except.ok 0, fun _ => Except.error "rate limit"⟩ : Provider).sendResult "hi")
        = Except.ok ("Error: " ++ "rate limit") ∧
     (conversation_run ⟨[], some 6, ""⟩ ⟨Except.ok 0, fun _ => Except.error "rate limit"⟩
         (.send "hi")).exceptTaken = false ∧
     ∀ r : Except String String, ∃ t, chat_response_streaming r = Except.ok t) :=
  ⟨rfl, by decide, rfl,
    C9_streaming_total_never_raises ⟨[], some 6, ""⟩
      ⟨Except.ok 0, fun _ => Except.error "rate limit"⟩ "hi" "rate limit" 6 rfl
      (by decide) rfl⟩

/-- C10: a Clear Chat run on an active session performs no provider call
(neither session creation nor an exchange) and sets the three state fields to
their initial values in the same step: empty transcript, no session handle,
empty pending input. -/
theorem C10_clear_resets_all_fields_locally (st : ChatState) (prov : Provider)
    (s : Session) (hs : st.chat_session = some s) :
    conversation_run st prov .clear =
      ⟨⟨[], none, ""⟩, false, false, false, .completed⟩ := by
  obtain ⟨hist, sess, inp⟩ := st
  cases hs
  rfl

theorem C10_witness :
    ((⟨[("u", "b")], some 4, "typed"⟩ : ChatState).chat_session = some 4) ∧
    conversation_run ⟨[("u", "b")], some 4, "typed"⟩ ⟨Except.ok 9, fun _ => Except.ok "x"⟩
        .clear =
      ⟨⟨[], none, ""⟩, false, false, false, .completed⟩ :=
  ⟨rfl,
    C10_clear_resets_all_fields_locally ⟨[("u", "b")], some 4, "typed"⟩
      ⟨Except.ok 9, fun _ => Except.ok "x"⟩ 4 rfl⟩
